import Mathlib

/-!
# Verification of the invoice processing orchestration core

Shallow embedding of the orchestration engine of `stripe-invoice-sync`
(`app/db/models.py`, `app/db/crud.py`, `app/db/services.py`,
`app/db/database.py`) and proofs about the claims of its specification.

Modelling conventions:

* Database tables become Lean lists of structures; rows are appended in
  insertion order, matching SQLite rowid order, so `query(...).first()`
  becomes `List.find?`.
* Every timestamp is a `Nat` counted in minutes (the retry backoff is
  expressed in minutes in the source); `datetime.utcnow()` becomes an
  explicit `now : Nat` parameter, one per service operation.
* `sha256` checksums are modelled by an explicit `hash : String → String`
  parameter; all theorems hold for every hash function.
* Each CRUD helper of `crud.py` ends in `db.commit()`, so its effect is
  durable the moment the helper returns.  A service operation therefore
  returns the *committed* state together with its outcome
  (`DB × Except DBError _`): when an exception escapes, the rollback of
  `get_db_context` can only discard uncommitted work, and everything the
  CRUD helpers committed earlier in the operation remains visible.
* Python raises become `Except DBError`; `None`/`""` truthiness of
  optional string arguments is modelled explicitly.
* Monetary amounts are opaque payload for every claim considered here and
  are carried as `Int`; JSON payloads (request/response snapshots,
  metadata dictionaries) are carried as association lists or opaque
  strings.
-/

/-- `ProcessingStatus` enum of `app/db/models.py` (a `str` enum). -/
inductive ProcessingStatus where
  | pending
  | processing
  | completed
  | failed
  | retry
  | cancelled
deriving DecidableEq, Repr

/-- The string value of a `ProcessingStatus` member (the `str` enum values). -/
def ProcessingStatus.value : ProcessingStatus → String
  | .pending => "pending"
  | .processing => "processing"
  | .completed => "completed"
  | .failed => "failed"
  | .retry => "retry"
  | .cancelled => "cancelled"

/-- `InvoiceType` enum of `app/db/models.py`. -/
inductive InvoiceType where
  | stripe_invoice
  | stripe_charge
deriving DecidableEq, Repr

/-- Row of table `processed_invoices` (`ProcessedInvoice` in
`app/db/models.py`).  Tracks processed invoices to prevent duplicates. -/
structure ProcessedInvoice where
  id : Nat
  stripe_id : String
  invoice_type : InvoiceType
  provider : String
  provider_invoice_id : Option String := none
  status : ProcessingStatus
  customer_id : String
  customer_email : String
  customer_tax_id : Option String := none
  amount : Int
  currency : String
  invoice_date : Nat
  attempts : Nat := 0
  last_error : Option String := none
  processed_at : Option Nat := none
  created_at : Nat
  updated_at : Nat
  extra_metadata : List (String × String) := []
deriving DecidableEq, Repr

/-- Row of table `processing_history` (`ProcessingHistory` in
`app/db/models.py`).  Append-only processing audit trail. -/
structure ProcessingHistory where
  id : Nat
  invoice_id : Nat
  stripe_id : String
  provider : String
  action : String
  status : String
  request_data : Option String := none
  response_data : Option String := none
  error_message : Option String := none
  started_at : Nat
  completed_at : Option Nat := none
  duration_ms : Option Nat := none
  initiated_by : String := "system"
deriving DecidableEq, Repr

/-- Row of table `audit_logs` (`AuditLog` in `app/db/models.py`). -/
structure AuditLog where
  id : Nat
  event_type : String
  resource_type : String
  resource_id : Option String := none
  action : String
  description : Option String := none
  extra_metadata : List (String × String) := []
  created_at : Nat
deriving DecidableEq, Repr

/-- Row of table `retry_queue` (`RetryQueue` in `app/db/models.py`). -/
structure RetryQueue where
  id : Nat
  invoice_id : Nat
  stripe_id : String
  provider : String
  retry_count : Nat := 0
  max_retries : Nat := 3
  retry_after : Nat
  last_error : Option String := none
  error_code : Option String := none
  active : Bool := true
  completed : Bool := false
  created_at : Nat
deriving DecidableEq, Repr

/-- Row of table `invoice_documents` (`InvoiceDocument` in
`app/db/models.py`). -/
structure InvoiceDocument where
  id : Nat
  invoice_id : Nat
  stripe_id : String
  provider : String
  document_type : String
  document_content : String
  file_size : Option Nat := none
  checksum : Option String := none
  created_at : Nat
deriving DecidableEq, Repr

/-- The committed database state: the five tables of the orchestration
core plus one autoincrement counter per table. -/
structure DB where
  invoices : List ProcessedInvoice := []
  history : List ProcessingHistory := []
  audit : List AuditLog := []
  retry_queue : List RetryQueue := []
  documents : List InvoiceDocument := []
  next_invoice_id : Nat := 1
  next_history_id : Nat := 1
  next_audit_id : Nat := 1
  next_retry_id : Nat := 1
  next_document_id : Nat := 1
deriving DecidableEq, Repr

/-- The empty store. -/
def DB.empty : DB := {}

/-- Errors raised by the persistence layer: `IntegrityError` for a
uniqueness-constraint violation (a `SQLAlchemyError`) and `ValueError`
for a missing row. -/
inductive DBError where
  | integrityError
  | valueError (msg : String)
deriving DecidableEq, Repr

/-- `InvoiceData` (`app/core/provider_interface.py`): the normalized
invoice snapshot handed to the orchestration core.  Fields the core never
reads (supplier data, addresses, per-line details, ...) are opaque to
every claim and are summarised by `lines`. -/
structure InvoiceData where
  source_id : String
  customer_id : String
  customer_email : String
  customer_name : String
  customer_tax_id : Option String := none
  total : Int
  currency : String
  invoice_date : Nat
  lines : String := ""
deriving DecidableEq, Repr

/-- `ProviderResponse` (`app/core/provider_interface.py`): outcome of one
provider submission.  `data` models the optional response dictionary as an
association list (`none` for Python `None`). -/
structure ProviderResponse where
  success : Bool
  provider : String
  invoice_id : Option String := none
  message : Option String := none
  error : Option String := none
  data : Option (List (String × String)) := none
deriving DecidableEq, Repr

/-- Python truthiness of an optional string: `None` and `""` are falsy. -/
def strTruthy : Option String → Bool
  | none => false
  | some s => !(s == "")

/-! ## CRUD layer (`app/db/crud.py`)

Each function below is one static method of `crud.py`.  Every method ends
in `db.commit()`, so the `DB` it returns is the committed state. -/

/-- `InvoiceCRUD.check_duplicate`: first row whose `(stripe_id, provider)`
matches, `None` otherwise. -/
def check_duplicate (db : DB) (stripe_id provider : String) :
    Option ProcessedInvoice :=
  db.invoices.find? fun inv =>
    inv.stripe_id == stripe_id && inv.provider == provider

/-- `InvoiceCRUD.create_invoice`: insert a new PENDING record with
`attempts = 0` and commit.  The commit raises `IntegrityError` when a row
with the same `(stripe_id, provider)` already exists — the
`uix_stripe_provider` unique constraint of `ProcessedInvoice.__table_args__`. -/
def create_invoice (db : DB) (now : Nat) (stripe_id : String)
    (invoice_type : InvoiceType) (provider customer_id customer_email : String)
    (amount : Int) (currency : String) (invoice_date : Nat)
    (customer_tax_id : Option String)
    (extra_metadata : List (String × String)) :
    Except DBError (DB × ProcessedInvoice) :=
  if db.invoices.any fun inv =>
      inv.stripe_id == stripe_id && inv.provider == provider then
    .error .integrityError
  else
    let inv : ProcessedInvoice :=
      { id := db.next_invoice_id
        stripe_id := stripe_id
        invoice_type := invoice_type
        provider := provider
        status := .pending
        customer_id := customer_id
        customer_email := customer_email
        customer_tax_id := customer_tax_id
        amount := amount
        currency := currency
        invoice_date := invoice_date
        attempts := 0
        created_at := now
        updated_at := now
        extra_metadata := extra_metadata }
    .ok ({ db with
            invoices := db.invoices ++ [inv]
            next_invoice_id := db.next_invoice_id + 1 }, inv)

/-- Replace the invoice row with `inv.id` by `inv` (the effect of
committing a mutated ORM object). -/
def DB.setInvoice (db : DB) (inv : ProcessedInvoice) : DB :=
  { db with invoices := db.invoices.map fun i => if i.id == inv.id then inv else i }

/-- The row mutation performed by `InvoiceCRUD.update_status` on the row
it read: set the status, increment `attempts`, set
`provider_invoice_id` / `last_error` when the arguments are truthy, set
`processed_at` on COMPLETED; `updated_at` is refreshed by the column's
`onupdate`. -/
def update_status_row (now : Nat) (status : ProcessingStatus)
    (provider_invoice_id error_message : Option String)
    (inv : ProcessedInvoice) : ProcessedInvoice :=
  let inv := { inv with status := status, attempts := inv.attempts + 1,
                        updated_at := now }
  let inv := if strTruthy provider_invoice_id then
               { inv with provider_invoice_id := provider_invoice_id }
             else inv
  let inv := if strTruthy error_message then
               { inv with last_error := error_message }
             else inv
  if status = .completed then { inv with processed_at := some now } else inv

/-- `InvoiceCRUD.update_status`: look the row up by id (`ValueError` when
missing), apply `update_status_row` to it, commit. -/
def update_status (db : DB) (now : Nat) (invoice_id : Nat)
    (status : ProcessingStatus) (provider_invoice_id : Option String)
    (error_message : Option String) :
    Except DBError (DB × ProcessedInvoice) :=
  match db.invoices.find? (fun i => i.id == invoice_id) with
  | none => .error (.valueError ("Invoice " ++ toString invoice_id ++ " not found"))
  | some inv =>
    let inv := update_status_row now status provider_invoice_id
      error_message inv
    .ok (db.setInvoice inv, inv)

/-- `ProcessingHistoryCRUD.create_history`: append a new history row with
`started_at = now` and commit. -/
def create_history (db : DB) (now : Nat) (invoice_id : Nat)
    (stripe_id provider action status : String)
    (request_data : Option String := none)
    (response_data : Option String := none)
    (error_message : Option String := none)
    (initiated_by : String := "system") :
    DB × ProcessingHistory :=
  let h : ProcessingHistory :=
    { id := db.next_history_id
      invoice_id := invoice_id
      stripe_id := stripe_id
      provider := provider
      action := action
      status := status
      request_data := request_data
      response_data := response_data
      error_message := error_message
      started_at := now
      initiated_by := initiated_by }
  ({ db with history := db.history ++ [h]
             next_history_id := db.next_history_id + 1 }, h)

/-- Replace the history row with `h.id` by `h`. -/
def DB.setHistory (db : DB) (h : ProcessingHistory) : DB :=
  { db with history := db.history.map fun x => if x.id == h.id then h else x }

/-- `ProcessingHistoryCRUD.complete_history`: look the row up by id
(`ValueError` when missing), seal it with `completed_at = now` and the
elapsed duration in milliseconds, optionally set response/error, commit. -/
def complete_history (db : DB) (now : Nat) (history_id : Nat)
    (status : String) (response_data : Option String := none)
    (error_message : Option String := none) :
    Except DBError (DB × ProcessingHistory) :=
  match db.history.find? (fun h => h.id == history_id) with
  | none => .error (.valueError ("History record " ++ toString history_id ++ " not found"))
  | some h =>
    let h := { h with status := status, completed_at := some now,
                      duration_ms := some ((now - h.started_at) * 60000) }
    let h := if strTruthy response_data then
               { h with response_data := response_data }
             else h
    let h := if strTruthy error_message then
               { h with error_message := error_message }
             else h
    .ok (db.setHistory h, h)

/-- `AuditLogCRUD.create_audit_log`: append a new audit row and commit. -/
def create_audit_log (db : DB) (now : Nat)
    (event_type resource_type action : String)
    (resource_id : Option String := none)
    (description : Option String := none)
    (extra_metadata : List (String × String) := []) :
    DB × AuditLog :=
  let a : AuditLog :=
    { id := db.next_audit_id
      event_type := event_type
      resource_type := resource_type
      resource_id := resource_id
      action := action
      description := description
      extra_metadata := extra_metadata
      created_at := now }
  ({ db with audit := db.audit ++ [a]
             next_audit_id := db.next_audit_id + 1 }, a)

/-- `RetryQueueCRUD.add_to_retry_queue`: append a new retry row with
`retry_count = 0`, `active = True`, `retry_after = now + retry_after_minutes`
and commit. -/
def add_to_retry_queue (db : DB) (now : Nat) (invoice_id : Nat)
    (stripe_id provider : String) (error_message : Option String)
    (error_code : Option String := none)
    (retry_after_minutes : Nat := 30) :
    DB × RetryQueue :=
  let r : RetryQueue :=
    { id := db.next_retry_id
      invoice_id := invoice_id
      stripe_id := stripe_id
      provider := provider
      last_error := error_message
      error_code := error_code
      retry_after := now + retry_after_minutes
      retry_count := 0
      active := true
      created_at := now }
  ({ db with retry_queue := db.retry_queue ++ [r]
             next_retry_id := db.next_retry_id + 1 }, r)

/-- The filter of `RetryQueueCRUD.get_ready_retries`: active, not
completed, due, and below the per-row retry budget, optionally restricted
to one provider. -/
def readyRetry (now : Nat) (provider : Option String) (r : RetryQueue) : Bool :=
  r.active && !r.completed && decide (r.retry_after ≤ now)
    && decide (r.retry_count < r.max_retries)
    && (match provider with
        | some p => r.provider == p
        | none => true)

/-- The `ORDER BY retry_after` ordering of `get_ready_retries`:
oldest-due first. -/
def retryLE (a b : RetryQueue) : Prop := a.retry_after ≤ b.retry_after

instance : DecidableRel retryLE :=
  fun a b => inferInstanceAs (Decidable (a.retry_after ≤ b.retry_after))

instance : IsTotal RetryQueue retryLE :=
  ⟨fun a b => Nat.le_total a.retry_after b.retry_after⟩

instance : IsTrans RetryQueue retryLE := ⟨fun _ _ _ => Nat.le_trans⟩

/-- `RetryQueueCRUD.get_ready_retries`: the active, not-completed, due
rows with `retry_count < max_retries` (optionally filtered by provider),
ordered by `retry_after` ascending. -/
def get_ready_retries (db : DB) (now : Nat) (provider : Option String) :
    List RetryQueue :=
  List.insertionSort retryLE (db.retry_queue.filter (readyRetry now provider))

/-- `InvoiceDocumentCRUD.get_document`: first document row matching the
`(invoice_id, document_type, provider)` key. -/
def get_document (db : DB) (invoice_id : Nat) (document_type provider : String) :
    Option InvoiceDocument :=
  db.documents.find? fun d =>
    d.invoice_id == invoice_id && d.document_type == document_type
      && d.provider == provider

/-- `InvoiceDocumentCRUD.save_document`: insert a document row and commit.
The commit raises `IntegrityError` when a row with the same
`(invoice_id, document_type, provider)` key exists — the
`uix_invoice_doc_provider` unique constraint. -/
def save_document (db : DB) (now : Nat) (invoice_id : Nat)
    (stripe_id provider document_type document_content : String)
    (file_size : Option Nat) (checksum : Option String) :
    Except DBError (DB × InvoiceDocument) :=
  if db.documents.any fun d =>
      d.invoice_id == invoice_id && d.document_type == document_type
        && d.provider == provider then
    .error .integrityError
  else
    let d : InvoiceDocument :=
      { id := db.next_document_id
        invoice_id := invoice_id
        stripe_id := stripe_id
        provider := provider
        document_type := document_type
        document_content := document_content
        file_size := file_size
        checksum := checksum
        created_at := now }
    .ok ({ db with documents := db.documents ++ [d]
                   next_document_id := db.next_document_id + 1 }, d)

/-! ## Service layer (`app/db/services.py`, `InvoiceProcessingService`)

Each service method runs inside `get_db_context`, whose `rollback` on an
escaping exception can only discard *uncommitted* changes; everything the
CRUD helpers above committed earlier in the method stays.  A service
operation therefore returns the committed `DB` paired with its outcome. -/

/-- Opaque serialization of the invoice snapshot stored as the
`request_data` of the "created" history row (the `invoice_data.dict()`
payload; its content is irrelevant to every claim). -/
def InvoiceData.serialize (d : InvoiceData) : String :=
  d.source_id ++ "|" ++ d.customer_id ++ "|" ++ d.currency

/-- Opaque serialization of a provider response data dictionary, used
where the source passes the dict itself; Python truthiness (`{}` and
`None` falsy) is preserved: `none ↦ none`, `some [] ↦ some ""`. -/
def respDataStr : Option (List (String × String)) → Option String
  | none => none
  | some l => some (String.intercalate ";" (l.map fun kv => kv.1 ++ "=" ++ kv.2))

/-- Render an optional string in audit metadata. -/
def optStr (o : Option String) : String := o.getD ""

/-- Core of `InvoiceProcessingService.process_invoice_with_duplicate_check`.

`dbCheck` is the store state observed by the duplicate SELECT and
`dbInsert` the state at which this session's writes commit; they differ
only when a concurrent intake commits between the check and the insert
(the check-then-insert race window).  On `IntegrityError` the
`except SQLAlchemyError` block of the source logs and re-raises — there is
no fallback to the duplicate path — and nothing of this session was
committed yet, so the committed state is `dbInsert` unchanged. -/
def process_invoice_with_duplicate_check2 (dbCheck dbInsert : DB) (now : Nat)
    (invoice_data : InvoiceData) (provider : String)
    (invoice_type : InvoiceType) :
    DB × Except DBError (ProcessedInvoice × Bool) :=
  match check_duplicate dbCheck invoice_data.source_id provider with
  | some existing =>
    let (db1, _) := create_audit_log dbInsert now
      "invoice_processing" "invoice" "duplicate_detected"
      (some invoice_data.source_id)
      (some ("Duplicate invoice detected for provider " ++ provider))
      [("provider", provider),
       ("existing_invoice_id", toString existing.id),
       ("status", existing.status.value)]
    (db1, .ok (existing, true))
  | none =>
    match create_invoice dbInsert now invoice_data.source_id invoice_type
        provider invoice_data.customer_id invoice_data.customer_email
        invoice_data.total invoice_data.currency invoice_data.invoice_date
        invoice_data.customer_tax_id
        [("customer_name", invoice_data.customer_name),
         ("lines", invoice_data.lines)] with
    | .error e => (dbInsert, .error e)
    | .ok (db1, invoice) =>
      let (db2, _) := create_history db1 now invoice.id
        invoice_data.source_id provider "created" "success"
        (some invoice_data.serialize)
      let (db3, _) := create_audit_log db2 now
        "invoice_processing" "invoice" "created"
        (some invoice_data.source_id)
        (some ("New invoice created for processing with " ++ provider))
        [("provider", provider),
         ("amount", toString invoice_data.total),
         ("currency", invoice_data.currency)]
      (db3, .ok (invoice, false))

/-- `InvoiceProcessingService.process_invoice_with_duplicate_check`, the
serial (non-racing) case: check and insert observe the same state. -/
def process_invoice_with_duplicate_check (db : DB) (now : Nat)
    (invoice_data : InvoiceData) (provider : String)
    (invoice_type : InvoiceType) :
    DB × Except DBError (ProcessedInvoice × Bool) :=
  process_invoice_with_duplicate_check2 db db now invoice_data provider invoice_type

/-- `InvoiceProcessingService._save_invoice_document`: compute checksum
and byte size, skip the write when a document already exists for the
`(invoice_id, document_type, provider)` key; the surrounding
`except Exception` swallows any storage error. -/
def save_invoice_document (hash : String → String) (db : DB) (now : Nat)
    (invoice_id : Nat) (stripe_id provider document_type content : String) :
    DB :=
  let checksum := hash content
  let file_size := content.utf8ByteSize
  match get_document db invoice_id document_type provider with
  | some _ => db
  | none =>
    match save_document db now invoice_id stripe_id provider document_type
        content (some file_size) (some checksum) with
    | .ok (db2, _) => db2
    | .error _ => db

/-- The success-path document forwarding of
`update_invoice_status_with_history`:
`if provider_response.data and "xml" in provider_response.data:` then
`_save_invoice_document(db, ..., "xml", provider_response.data["xml"])`
(a non-empty dictionary is truthy; membership and lookup by key "xml"). -/
def forward_xml_document (hash : String → String) (db : DB) (now : Nat)
    (invoice_id : Nat) (stripe_id provider : String)
    (data : Option (List (String × String))) : DB :=
  match data with
  | some d =>
    if d.any (fun kv => kv.1 == "xml") then
      save_invoice_document hash db now invoice_id stripe_id provider "xml"
        (((d.find? (fun kv => kv.1 == "xml")).map Prod.snd).getD "")
    else db
  | none => db

/-- `InvoiceProcessingService.update_invoice_status_with_history`
(the `applyResult` of the spec).

Order of effects, exactly as the source: open a "processing" history row
(committed at once by `create_history`, with `stripe_id = ""`), look the
invoice up (raise `ValueError` when missing — the already committed
history row is then left behind), backfill the history row's
`stripe_id`, then on success: `update_status` to COMPLETED, seal the
history row, append the "completed" audit row, and archive the "xml"
document when the response carries one; on failure: `update_status` to
FAILED, seal the history row with the error, enqueue a retry when
`attempts < 3` with a `30 * attempts` minute delay, append the "failed"
audit row. -/
def update_invoice_status_with_history (hash : String → String) (db : DB)
    (now : Nat) (invoice_id : Nat) (resp : ProviderResponse)
    (action : String := "process") :
    DB × Except DBError ProcessedInvoice :=
  let (db1, hist) := create_history db now invoice_id "" resp.provider
    action "processing" (some action)
  match db1.invoices.find? (fun i => i.id == invoice_id) with
  | none =>
    (db1, .error (.valueError ("Invoice " ++ toString invoice_id ++ " not found")))
  | some inv0 =>
    let db2 := db1.setHistory { hist with stripe_id := inv0.stripe_id }
    if resp.success then
      match update_status db2 now invoice_id .completed resp.invoice_id none with
      | .error e => (db2, .error e)
      | .ok (db3, invoice) =>
        match complete_history db3 now hist.id "success" (respDataStr resp.data) none with
        | .error e => (db3, .error e)
        | .ok (db4, _) =>
          let (db5, _) := create_audit_log db4 now
            "invoice_processing" "invoice" "completed"
            (some invoice.stripe_id)
            (some ("Invoice successfully processed by " ++ resp.provider))
            [("provider", resp.provider),
             ("provider_invoice_id", optStr resp.invoice_id)]
          let db6 := forward_xml_document hash db5 now invoice.id
            invoice.stripe_id resp.provider resp.data
          (db6, .ok invoice)
    else
      match update_status db2 now invoice_id .failed none resp.message with
      | .error e => (db2, .error e)
      | .ok (db3, invoice) =>
        match complete_history db3 now hist.id "failed" none resp.error with
        | .error e => (db3, .error e)
        | .ok (db4, _) =>
          let db5 :=
            if invoice.attempts < 3 then
              (add_to_retry_queue db4 now invoice.id invoice.stripe_id
                resp.provider resp.error none (30 * invoice.attempts)).1
            else db4
          let (db6, _) := create_audit_log db5 now
            "invoice_processing" "invoice" "failed"
            (some invoice.stripe_id)
            (some ("Invoice processing failed for " ++ resp.provider))
            [("provider", resp.provider),
             ("error", optStr resp.error),
             ("attempts", toString invoice.attempts)]
          (db6, .ok invoice)

/-- One element of the list returned by
`InvoiceProcessingService.process_retry_queue`. -/
structure RetryResult where
  retry_id : Nat
  invoice_id : Nat
  stripe_id : String
  provider : String
  retry_count : Nat
  status : String := "pending_retry"
deriving DecidableEq, Repr

/-- One loop iteration of `process_retry_queue`: look the invoice up; when
present, record the pending-retry result and set the invoice status to
RETRY directly (`invoice.status = ProcessingStatus.RETRY; db.commit()` —
note: no `attempts` increment on this path). -/
def process_retry_step (now : Nat) (acc : DB × List RetryResult)
    (r : RetryQueue) : DB × List RetryResult :=
  match acc.1.invoices.find? (fun i => i.id == r.invoice_id) with
  | none => acc
  | some inv =>
    (acc.1.setInvoice { inv with status := .retry, updated_at := now },
     acc.2 ++ [{ retry_id := r.id, invoice_id := inv.id,
                 stripe_id := inv.stripe_id, provider := inv.provider,
                 retry_count := r.retry_count }])

/-- `InvoiceProcessingService.process_retry_queue`: surface the due retry
entries and mark each referenced invoice RETRY. -/
def process_retry_queue (db : DB) (now : Nat) (provider : Option String) :
    DB × List RetryResult :=
  (get_ready_retries db now provider).foldl (process_retry_step now) (db, [])

/-- The operations of the orchestration core, for stating properties over
arbitrary operation sequences. -/
inductive Op where
  | intake (now : Nat) (invoice_data : InvoiceData) (provider : String)
      (invoice_type : InvoiceType)
  | applyResult (now : Nat) (invoice_id : Nat) (resp : ProviderResponse)
      (action : String)
  | retrySweep (now : Nat) (provider : Option String)

/-- The committed state after one operation (outcomes discarded). -/
def applyOp (hash : String → String) (db : DB) : Op → DB
  | .intake now d p ty => (process_invoice_with_duplicate_check db now d p ty).1
  | .applyResult now iid resp action =>
      (update_invoice_status_with_history hash db now iid resp action).1
  | .retrySweep now p => (process_retry_queue db now p).1

/-- The `attempts` counter of the invoice row with the given id. -/
def attemptsOf (db : DB) (invoice_id : Nat) : Option Nat :=
  (db.invoices.find? (fun i => i.id == invoice_id)).map (·.attempts)

/-! ## Shared concrete fixtures for witnesses and counterexamples -/

/-- A concrete stand-in for the sha256 hex digest (theorems about the
document archive hold for every hash function). -/
def idHash : String → String := fun s => s

/-- The invoice snapshot used by the repository's own tests
(`tests/test_db/test_duplicate_detection.py`), trimmed to the fields the
core reads. -/
def sampleData (sid : String) : InvoiceData :=
  { source_id := sid, customer_id := "cus_test123",
    customer_email := "test@example.com", customer_name := "Test Customer",
    customer_tax_id := some "RO12345678", total := 119, currency := "RON",
    invoice_date := 0, lines := "Test Service" }

/-- A failed provider response (as in `test_retry_queue.py`). -/
def failResp : ProviderResponse :=
  { success := false, provider := "anaf",
    message := some "Authentication failed", error := some "AUTH" }

/-- A successful provider response carrying an external id. -/
def okResp : ProviderResponse :=
  { success := true, provider := "anaf", invoice_id := some "ANAF-123456",
    message := some "Invoice processed successfully" }

/-- The `(invoice_id, document_type, provider)` key of the document
archive (`uix_invoice_doc_provider`). -/
def docKey (invoice_id : Nat) (document_type provider : String)
    (d : InvoiceDocument) : Bool :=
  d.invoice_id == invoice_id && d.document_type == document_type
    && d.provider == provider

/-- A pre-existing FAILED record, for exercising status-independence. -/
def c10rec : ProcessedInvoice :=
  { id := 7, stripe_id := "ch_10", invoice_type := .stripe_charge,
    provider := "anaf", status := .failed, customer_id := "cus_test123",
    customer_email := "test@example.com", amount := 119, currency := "RON",
    invoice_date := 0, attempts := 2, last_error := some "boom",
    created_at := 0, updated_at := 3 }

/-- A store holding only the FAILED record `c10rec`. -/
def c10db : DB := { invoices := [c10rec], next_invoice_id := 8 }

/-- A freshly intaken PENDING record (Scenario B starting point). -/
def c4inv : ProcessedInvoice :=
  { id := 1, stripe_id := "ch_2", invoice_type := .stripe_charge,
    provider := "anaf", status := .pending, customer_id := "cus_test123",
    customer_email := "test@example.com", customer_tax_id := some "RO12345678",
    amount := 119, currency := "RON", invoice_date := 0, attempts := 0,
    created_at := 0, updated_at := 0 }

/-- A store holding only the PENDING record `c4inv`. -/
def c4db : DB := { invoices := [c4inv], next_invoice_id := 2 }

/-- Scenario C, steps 1 and 2: intake "ch_3" for "anaf" on the empty
store, then two failed applyResults on the created record (id 1). -/
def scenarioC_after2 : DB :=
  (update_invoice_status_with_history idHash
    (update_invoice_status_with_history idHash
      (process_invoice_with_duplicate_check DB.empty 0 (sampleData "ch_3")
        "anaf" .stripe_charge).1
      10 1 failResp "create_invoice").1
    50 1 failResp "create_invoice").1

/-- Scenario C complete: the third failed applyResult on the record. -/
def scenarioC : DB :=
  (update_invoice_status_with_history idHash scenarioC_after2 120 1 failResp
    "create_invoice").1

/-- A FAILED record with one attempt, referenced by an active due retry
entry. -/
def c6inv : ProcessedInvoice :=
  { id := 1, stripe_id := "ch_6", invoice_type := .stripe_charge,
    provider := "anaf", status := .failed, customer_id := "cus_test123",
    customer_email := "test@example.com", amount := 119, currency := "RON",
    invoice_date := 0, attempts := 1, last_error := some "boom",
    created_at := 0, updated_at := 0 }

/-- An active retry entry for `c6inv`, due at time 10. -/
def c6retry : RetryQueue :=
  { id := 1, invoice_id := 1, stripe_id := "ch_6", provider := "anaf",
    retry_after := 10, created_at := 0 }

/-- A store holding `c6inv` and its active due retry entry. -/
def c6db : DB :=
  { invoices := [c6inv], retry_queue := [c6retry],
    next_invoice_id := 2, next_retry_id := 2 }

/-! ## C8 — the retry sweep query -/

/-- C8: `get_ready_retries` returns exactly the retry-queue entries that
are active, not completed, due (`retry_after ≤ now`) and strictly below
their retry budget (`retry_count < max_retries`), optionally filtered by
provider; the result is ordered by `retry_after` ascending (oldest-due
first) and is a permutation of the filtered queue. -/
theorem get_ready_retries_exact (db : DB) (now : Nat)
    (provider : Option String) :
    (∀ r, r ∈ get_ready_retries db now provider ↔
        r ∈ db.retry_queue ∧
          (r.active && !r.completed && decide (r.retry_after ≤ now)
            && decide (r.retry_count < r.max_retries)
            && (match provider with
                | some p => r.provider == p
                | none => true)) = true)
    ∧ (get_ready_retries db now provider).Sorted retryLE
    ∧ (get_ready_retries db now provider).Perm
        (db.retry_queue.filter (readyRetry now provider)) := by
  refine ⟨fun r => ?_, List.sorted_insertionSort retryLE _,
    List.perm_insertionSort retryLE _⟩
  show r ∈ List.insertionSort retryLE
      (db.retry_queue.filter (readyRetry now provider)) ↔ _
  rw [(List.perm_insertionSort retryLE _).mem_iff, List.mem_filter]
  exact Iff.rfl

/-! ## C9 — idempotent document archive -/

/-- C9: storing a document twice for the same
`(invoice_id, document_type, provider)` key leaves exactly one stored
artifact: starting from a store with no document for the key, the first
`_save_invoice_document` stores exactly one matching row and the second
call is a no-op (the existence check runs before the insert). -/
theorem store_document_idempotent (hash : String → String) (db : DB)
    (now₁ now₂ : Nat) (invoice_id : Nat)
    (stripe_id provider document_type content : String)
    (h : get_document db invoice_id document_type provider = none) :
    ((save_invoice_document hash db now₁ invoice_id stripe_id provider
        document_type content).documents.filter
        (docKey invoice_id document_type provider)).length = 1
    ∧ save_invoice_document hash
        (save_invoice_document hash db now₁ invoice_id stripe_id provider
          document_type content)
        now₂ invoice_id stripe_id provider document_type content
      = save_invoice_document hash db now₁ invoice_id stripe_id provider
          document_type content := by
  have hall : ∀ d ∈ db.documents,
      ¬(d.invoice_id == invoice_id && d.document_type == document_type
        && d.provider == provider) = true := by
    intro d hd
    exact List.find?_eq_none.mp h d hd
  have hany : (db.documents.any fun d =>
      d.invoice_id == invoice_id && d.document_type == document_type
        && d.provider == provider) = false :=
    List.any_eq_false.mpr hall
  have hsd : save_invoice_document hash db now₁ invoice_id stripe_id provider
      document_type content
      = { db with
          documents := db.documents ++
            [{ id := db.next_document_id, invoice_id := invoice_id,
               stripe_id := stripe_id, provider := provider,
               document_type := document_type, document_content := content,
               file_size := some content.utf8ByteSize,
               checksum := some (hash content), created_at := now₁ }]
          next_document_id := db.next_document_id + 1 } := by
    rw [save_invoice_document, h]
    rw [save_document, if_neg (by simp [hany])]
  refine ⟨?_, ?_⟩
  · rw [hsd]
    show (List.filter _ (db.documents ++ _)).length = 1
    rw [List.filter_append, List.filter_eq_nil_iff.mpr ?_]
    · simp [docKey]
    · intro d hd
      simpa [docKey] using hall d hd
  · have hfind : List.find? (fun d =>
        d.invoice_id == invoice_id && d.document_type == document_type
          && d.provider == provider) db.documents = none := h
    have hget : get_document (save_invoice_document hash db now₁ invoice_id
          stripe_id provider document_type content)
          invoice_id document_type provider
        = some { id := db.next_document_id, invoice_id := invoice_id,
                 stripe_id := stripe_id, provider := provider,
                 document_type := document_type, document_content := content,
                 file_size := some content.utf8ByteSize,
                 checksum := some (hash content), created_at := now₁ } := by
      rw [hsd, get_document]
      show List.find? _ (db.documents ++ _) = _
      rw [List.find?_append, hfind, Option.none_or, List.find?_singleton,
        if_pos (by simp)]
    nth_rewrite 1 [save_invoice_document]
    rw [hget]

/-- C9 witness: a concrete run of the double store on the empty store. -/
theorem store_document_idempotent_witness :
    get_document DB.empty 1 "xml" "anaf" = none ∧
    (((save_invoice_document idHash DB.empty 0 1 "ch_9" "anaf" "xml"
        "xmlbody").documents.filter (docKey 1 "xml" "anaf")).length = 1
    ∧ save_invoice_document idHash
        (save_invoice_document idHash DB.empty 0 1 "ch_9" "anaf" "xml"
          "xmlbody") 5 1 "ch_9" "anaf" "xml" "xmlbody"
      = save_invoice_document idHash DB.empty 0 1 "ch_9" "anaf" "xml"
          "xmlbody") :=
  ⟨rfl, store_document_idempotent idHash DB.empty 0 5 1 "ch_9" "anaf" "xml"
    "xmlbody" rfl⟩

/-! ## C10 — duplicate detection is status-independent -/

/-- C10: duplicate detection depends only on the `(source_id, provider)`
key and not on the existing record's status: whenever `check_duplicate`
finds a record for the key — whatever its status, FAILED and CANCELLED
included — intake returns that record with `isDuplicate = true`, appends
only the "duplicate_detected" audit row (which references the record's
current status), and leaves the record store and every other table
unchanged, so no second record is ever created through intake. -/
theorem intake_duplicate_status_independent (db : DB) (now : Nat)
    (d : InvoiceData) (provider : String) (ty : InvoiceType)
    (rec : ProcessedInvoice)
    (h : check_duplicate db d.source_id provider = some rec) :
    process_invoice_with_duplicate_check db now d provider ty =
      ({ db with
          audit := db.audit ++
            [{ id := db.next_audit_id,
               event_type := "invoice_processing",
               resource_type := "invoice",
               resource_id := some d.source_id,
               action := "duplicate_detected",
               description := some
                 ("Duplicate invoice detected for provider " ++ provider),
               extra_metadata := [("provider", provider),
                 ("existing_invoice_id", toString rec.id),
                 ("status", rec.status.value)],
               created_at := now }],
          next_audit_id := db.next_audit_id + 1 },
       .ok (rec, true)) := by
  unfold process_invoice_with_duplicate_check
    process_invoice_with_duplicate_check2
  rw [h]
  rfl

/-- C10 witness: re-intaking a FAILED record yields the duplicate path. -/
theorem intake_duplicate_status_independent_witness :
    check_duplicate c10db "ch_10" "anaf" = some c10rec ∧
    process_invoice_with_duplicate_check c10db 9 (sampleData "ch_10") "anaf"
        .stripe_charge =
      ({ c10db with
          audit := c10db.audit ++
            [{ id := c10db.next_audit_id,
               event_type := "invoice_processing",
               resource_type := "invoice",
               resource_id := some (sampleData "ch_10").source_id,
               action := "duplicate_detected",
               description := some
                 ("Duplicate invoice detected for provider " ++ "anaf"),
               extra_metadata := [("provider", "anaf"),
                 ("existing_invoice_id", toString c10rec.id),
                 ("status", c10rec.status.value)],
               created_at := 9 }],
          next_audit_id := c10db.next_audit_id + 1 },
       .ok (c10rec, true)) :=
  ⟨rfl, intake_duplicate_status_independent c10db 9 (sampleData "ch_10")
    "anaf" .stripe_charge c10rec rfl⟩

/-! ## C1 — idempotent re-intake -/

/-- C1: for a `(source_id, provider)` key with no existing record, the
first intake creates a record and returns `isDuplicate = false`; the
second intake with the identical key returns the very same record
unchanged with `isDuplicate = true`, appends exactly one audit row tagged
"duplicate_detected", and creates no new HistoryEntry (and no new record):
every table except the audit log is unchanged by the second call. -/
theorem intake_twice_idempotent (db : DB) (now₁ now₂ : Nat)
    (d : InvoiceData) (provider : String) (ty : InvoiceType)
    (h : check_duplicate db d.source_id provider = none) :
    ∃ db₁ rec,
      process_invoice_with_duplicate_check db now₁ d provider ty
        = (db₁, .ok (rec, false))
      ∧ ∃ a, a.action = "duplicate_detected"
        ∧ process_invoice_with_duplicate_check db₁ now₂ d provider ty
          = ({ db₁ with
                audit := db₁.audit ++ [a],
                next_audit_id := db₁.next_audit_id + 1 },
             .ok (rec, true)) := by
  have hfind : List.find? (fun inv =>
      inv.stripe_id == d.source_id && inv.provider == provider)
      db.invoices = none := h
  have hany : (db.invoices.any fun inv =>
      inv.stripe_id == d.source_id && inv.provider == provider) = false :=
    List.any_eq_false.mpr (List.find?_eq_none.mp hfind)
  set rec : ProcessedInvoice :=
    { id := db.next_invoice_id, stripe_id := d.source_id,
      invoice_type := ty, provider := provider, status := .pending,
      customer_id := d.customer_id, customer_email := d.customer_email,
      customer_tax_id := d.customer_tax_id, amount := d.total,
      currency := d.currency, invoice_date := d.invoice_date,
      attempts := 0, created_at := now₁, updated_at := now₁,
      extra_metadata := [("customer_name", d.customer_name),
        ("lines", d.lines)] } with hrec
  set db₁ : DB :=
    { db with
        invoices := db.invoices ++ [rec],
        history := db.history ++
          [{ id := db.next_history_id, invoice_id := rec.id,
             stripe_id := d.source_id, provider := provider,
             action := "created", status := "success",
             request_data := some d.serialize, started_at := now₁ }],
        audit := db.audit ++
          [{ id := db.next_audit_id, event_type := "invoice_processing",
             resource_type := "invoice", resource_id := some d.source_id,
             action := "created",
             description := some
               ("New invoice created for processing with " ++ provider),
             extra_metadata := [("provider", provider),
               ("amount", toString d.total), ("currency", d.currency)],
             created_at := now₁ }],
        next_invoice_id := db.next_invoice_id + 1,
        next_history_id := db.next_history_id + 1,
        next_audit_id := db.next_audit_id + 1 } with hdb₁
  have heq1 : process_invoice_with_duplicate_check db now₁ d provider ty
      = (db₁, .ok (rec, false)) := by
    unfold process_invoice_with_duplicate_check
      process_invoice_with_duplicate_check2
    rw [h]
    unfold create_invoice
    rw [if_neg (by simp [hany])]
    rw [hdb₁, hrec]
    rfl
  have hfind₁ : check_duplicate db₁ d.source_id provider = some rec := by
    rw [hdb₁]
    show List.find? _ (db.invoices ++ [rec]) = some rec
    rw [List.find?_append, hfind, Option.none_or, List.find?_singleton,
      if_pos (by rw [hrec]; simp)]
  refine ⟨db₁, rec,  heq1,
    ⟨{ id := db₁.next_audit_id, event_type := "invoice_processing",
       resource_type := "invoice", resource_id := some d.source_id,
       action := "duplicate_detected",
       description := some
         ("Duplicate invoice detected for provider " ++ provider),
       extra_metadata := [("provider", provider),
         ("existing_invoice_id", toString rec.id),
         ("status", rec.status.value)],
       created_at := now₂ }, rfl, ?_⟩⟩
  unfold process_invoice_with_duplicate_check
    process_invoice_with_duplicate_check2
  rw [hfind₁]
  rfl

/-- C1 witness: the double intake of `"ch_1"` for `"anaf"` on the empty
store (Scenario A of the specification). -/
theorem intake_twice_idempotent_witness :
    check_duplicate DB.empty "ch_1" "anaf" = none ∧
    ∃ db₁ rec,
      process_invoice_with_duplicate_check DB.empty 0 (sampleData "ch_1")
          "anaf" .stripe_charge = (db₁, .ok (rec, false))
      ∧ ∃ a, a.action = "duplicate_detected"
        ∧ process_invoice_with_duplicate_check db₁ 4 (sampleData "ch_1")
            "anaf" .stripe_charge
          = ({ db₁ with
                audit := db₁.audit ++ [a],
                next_audit_id := db₁.next_audit_id + 1 },
             .ok (rec, true)) :=
  ⟨rfl, intake_twice_idempotent DB.empty 0 4 (sampleData "ch_1") "anaf"
    .stripe_charge rfl⟩

/-! ## Frame lemmas for the applyResult path -/

/-- `_save_invoice_document` writes only to the documents table. -/
theorem save_invoice_document_frame (hash : String → String) (db : DB)
    (now : Nat) (invoice_id : Nat)
    (stripe_id provider document_type content : String) :
    (save_invoice_document hash db now invoice_id stripe_id provider
      document_type content).invoices = db.invoices
    ∧ (save_invoice_document hash db now invoice_id stripe_id provider
      document_type content).history = db.history
    ∧ (save_invoice_document hash db now invoice_id stripe_id provider
      document_type content).audit = db.audit
    ∧ (save_invoice_document hash db now invoice_id stripe_id provider
      document_type content).retry_queue = db.retry_queue := by
  unfold save_invoice_document
  cases hgd : get_document db invoice_id document_type provider with
  | some d => exact ⟨rfl, rfl, rfl, rfl⟩
  | none =>
    by_cases hc : (db.documents.any fun d =>
        d.invoice_id == invoice_id && d.document_type == document_type
          && d.provider == provider) = true
    · unfold save_document
      simp only [if_pos hc]
      exact ⟨trivial, trivial, trivial, trivial⟩
    · unfold save_document
      simp only [if_neg hc]
      exact ⟨trivial, trivial, trivial, trivial⟩

/-- The xml-forwarding step writes only to the documents table. -/
theorem forward_xml_document_frame (hash : String → String) (db : DB)
    (now : Nat) (invoice_id : Nat) (stripe_id provider : String)
    (data : Option (List (String × String))) :
    (forward_xml_document hash db now invoice_id stripe_id provider
      data).invoices = db.invoices
    ∧ (forward_xml_document hash db now invoice_id stripe_id provider
      data).history = db.history
    ∧ (forward_xml_document hash db now invoice_id stripe_id provider
      data).audit = db.audit
    ∧ (forward_xml_document hash db now invoice_id stripe_id provider
      data).retry_queue = db.retry_queue := by
  unfold forward_xml_document
  cases data with
  | none => exact ⟨rfl, rfl, rfl, rfl⟩
  | some d =>
    by_cases hc : (d.any fun kv => kv.1 == "xml") = true
    · simp only [if_pos hc]
      exact save_invoice_document_frame hash db now invoice_id stripe_id
        provider "xml" _
    · simp only [if_neg hc]
      exact ⟨trivial, trivial, trivial, trivial⟩

/-- A `find?` over the image of a list extended with an element whose
image satisfies the predicate cannot be `none`. -/
theorem find?_map_append_singleton_ne_none {α : Type} (p : α → Bool)
    (f : α → α) (l : List α) (a : α) (hp : p (f a) = true) :
    ¬ (List.find? p (List.map f (l ++ [a])) = none) := fun hnone =>
  (List.find?_eq_none.mp hnone _ (List.mem_map_of_mem f
    (List.mem_append_right l (List.mem_singleton_self a)))) hp

set_option maxHeartbeats 1000000 in
/-- C4: applying a successful provider result carrying a non-empty
external id to an existing record sets status COMPLETED,
`provider_invoice_id` to the external id, `processed_at` to now,
increments `attempts` by exactly one, and appends exactly one AuditLogEntry
tagged "completed" for the record. -/
theorem applyResult_success (hash : String → String) (db : DB) (now : Nat)
    (invoice_id : Nat) (resp : ProviderResponse) (action : String)
    (inv : ProcessedInvoice) (x : String)
    (hfound : db.invoices.find? (fun i => i.id == invoice_id) = some inv)
    (hs : resp.success = true) (hx : resp.invoice_id = some x)
    (hx0 : ¬x = "") :
    ((update_invoice_status_with_history hash db now invoice_id resp
        action).2.map
        fun i => (i.status, i.provider_invoice_id, i.processed_at, i.attempts))
      = .ok (ProcessingStatus.completed, some x, some now, inv.attempts + 1)
    ∧ (update_invoice_status_with_history hash db now invoice_id resp
        action).1.audit
      = db.audit ++
        [{ id := db.next_audit_id, event_type := "invoice_processing",
           resource_type := "invoice", resource_id := some inv.stripe_id,
           action := "completed",
           description := some
             ("Invoice successfully processed by " ++ resp.provider),
           extra_metadata := [("provider", resp.provider),
             ("provider_invoice_id", optStr resp.invoice_id)],
           created_at := now }] := by
  have hxs : strTruthy (some x) = true := by
    simp [strTruthy, hx0]
  have hnsP : ¬(strTruthy none = true) := by decide
  simp only [update_invoice_status_with_history, create_history, hfound,
    if_pos hs]
  simp only [update_status, update_status_row, DB.setHistory, hfound, hx,
    if_pos hxs, if_neg hnsP,
    if_pos (rfl : ProcessingStatus.completed = ProcessingStatus.completed),
    if_true]
  simp only [DB.setInvoice]
  constructor
  all_goals
    split
  · rename_i e heq
    exfalso
    unfold complete_history at heq
    split at heq
    · rename_i hnone
      exact find?_map_append_singleton_ne_none _ _ _ _ (by simp) hnone
    · exact Except.noConfusion heq
  · rfl
  · rename_i e heq
    exfalso
    unfold complete_history at heq
    split at heq
    · rename_i hnone
      exact find?_map_append_singleton_ne_none _ _ _ _ (by simp) hnone
    · exact Except.noConfusion heq
  · rename_i p db4 h4 heq
    unfold complete_history at heq
    split at heq
    · exact Except.noConfusion heq
    · rename_i h0 hsome
      injection heq with hpair
      injection hpair with hdb4 hh4
      subst hdb4
      rw [(forward_xml_document_frame hash _ now _ _ _ _).2.2.1]
      rfl

set_option maxHeartbeats 1000000 in
/-- C5: a failed provider result applied to an existing record sets status
FAILED and increments `attempts` to N = previous attempts + 1; when N < 3
(`max_retries`), exactly one RetryQueueEntry is enqueued for the record
with `retry_after = now + 30 * N` minutes, `retry_count = 0` and
`active = true`; when N is not below 3, the retry queue is unchanged (no
retry is enqueued). -/
theorem applyResult_failure_backoff (hash : String → String) (db : DB)
    (now : Nat) (invoice_id : Nat) (resp : ProviderResponse)
    (action : String) (inv : ProcessedInvoice)
    (hfound : db.invoices.find? (fun i => i.id == invoice_id) = some inv)
    (hs : resp.success = false) :
    ((update_invoice_status_with_history hash db now invoice_id resp
        action).2.map fun i => (i.status, i.attempts))
      = .ok (ProcessingStatus.failed, inv.attempts + 1)
    ∧ (inv.attempts + 1 < 3 →
        (update_invoice_status_with_history hash db now invoice_id resp
          action).1.retry_queue
          = db.retry_queue ++
            [{ id := db.next_retry_id, invoice_id := inv.id,
               stripe_id := inv.stripe_id, provider := resp.provider,
               retry_count := 0, max_retries := 3,
               retry_after := now + 30 * (inv.attempts + 1),
               last_error := resp.error, error_code := none,
               active := true, completed := false, created_at := now }])
    ∧ (¬ inv.attempts + 1 < 3 →
        (update_invoice_status_with_history hash db now invoice_id resp
          action).1.retry_queue = db.retry_queue) := by
  have hsP : ¬(resp.success = true) := by simp [hs]
  have hnsP : ¬(strTruthy none = true) := by decide
  have hfcP : ¬(ProcessingStatus.failed = ProcessingStatus.completed) := by
    decide
  by_cases hlt : inv.attempts + 1 < 3
  · simp only [update_invoice_status_with_history, create_history, hfound,
      if_neg hsP]
    simp only [update_status, update_status_row, DB.setHistory, hfound,
      if_neg hnsP,
      if_neg hfcP, apply_ite ProcessedInvoice.id,
      apply_ite ProcessedInvoice.stripe_id,
      apply_ite ProcessedInvoice.status,
      apply_ite ProcessedInvoice.attempts, ite_self, if_pos hlt]
    simp only [DB.setInvoice, add_to_retry_queue]
    refine ⟨?_, fun _ => ?_, fun hgeq => absurd hlt hgeq⟩
    · split
      · rename_i e heq
        exfalso
        unfold complete_history at heq
        split at heq
        · rename_i hnone
          exact find?_map_append_singleton_ne_none _ _ _ _ (by simp) hnone
        · exact Except.noConfusion heq
      · simp only [Except.map, apply_ite ProcessedInvoice.status,
          apply_ite ProcessedInvoice.attempts, ite_self]
    · split
      · rename_i e heq
        exfalso
        unfold complete_history at heq
        split at heq
        · rename_i hnone
          exact find?_map_append_singleton_ne_none _ _ _ _ (by simp) hnone
        · exact Except.noConfusion heq
      · rename_i p db4 h4 heq
        unfold complete_history at heq
        split at heq
        · exact Except.noConfusion heq
        · rename_i h0 hsome
          injection heq with hpair
          injection hpair with hdb4 hh4
          subst hdb4
          rfl
  · simp only [update_invoice_status_with_history, create_history, hfound,
      if_neg hsP]
    simp only [update_status, update_status_row, DB.setHistory, hfound,
      if_neg hnsP,
      if_neg hfcP, apply_ite ProcessedInvoice.id,
      apply_ite ProcessedInvoice.stripe_id,
      apply_ite ProcessedInvoice.status,
      apply_ite ProcessedInvoice.attempts, ite_self, if_neg hlt]
    simp only [DB.setInvoice]
    refine ⟨?_, fun hl3 => absurd hl3 hlt, fun _ => ?_⟩
    · split
      · rename_i e heq
        exfalso
        unfold complete_history at heq
        split at heq
        · rename_i hnone
          exact find?_map_append_singleton_ne_none _ _ _ _ (by simp) hnone
        · exact Except.noConfusion heq
      · simp only [Except.map, apply_ite ProcessedInvoice.status,
          apply_ite ProcessedInvoice.attempts, ite_self]
    · split
      · rename_i e heq
        exfalso
        unfold complete_history at heq
        split at heq
        · rename_i hnone
          exact find?_map_append_singleton_ne_none _ _ _ _ (by simp) hnone
        · exact Except.noConfusion heq
      · rename_i p db4 h4 heq
        unfold complete_history at heq
        split at heq
        · exact Except.noConfusion heq
        · rename_i h0 hsome
          injection heq with hpair
          injection hpair with hdb4 hh4
          subst hdb4
          rfl

/-- C4 witness: Scenario B — intake then one successful applyResult with
external id "ANAF-123456" yields COMPLETED, attempts 1, the external id
stored, `processed_at` set, and the "completed" audit row. -/
theorem applyResult_success_witness :
    c4db.invoices.find? (fun i => i.id == 1) = some c4inv ∧
    (((update_invoice_status_with_history idHash c4db 7 1 okResp
          "create_invoice").2.map
          fun i => (i.status, i.provider_invoice_id, i.processed_at,
            i.attempts))
        = .ok (ProcessingStatus.completed, some "ANAF-123456", some 7,
            c4inv.attempts + 1)
      ∧ (update_invoice_status_with_history idHash c4db 7 1 okResp
          "create_invoice").1.audit
        = c4db.audit ++
          [{ id := c4db.next_audit_id, event_type := "invoice_processing",
             resource_type := "invoice", resource_id := some c4inv.stripe_id,
             action := "completed",
             description := some
               ("Invoice successfully processed by " ++ okResp.provider),
             extra_metadata := [("provider", okResp.provider),
               ("provider_invoice_id", optStr okResp.invoice_id)],
             created_at := 7 }]) :=
  ⟨rfl, applyResult_success idHash c4db 7 1 okResp "create_invoice" c4inv
    "ANAF-123456" rfl rfl rfl (by decide)⟩

/-- C5 witness: the first failure on a fresh record (attempts 0 → 1)
enqueues one retry due 30 minutes later. -/
theorem applyResult_failure_backoff_witness :
    c4db.invoices.find? (fun i => i.id == 1) = some c4inv ∧
    (((update_invoice_status_with_history idHash c4db 10 1 failResp
          "create_invoice").2.map fun i => (i.status, i.attempts))
        = .ok (ProcessingStatus.failed, c4inv.attempts + 1)
      ∧ (c4inv.attempts + 1 < 3 →
          (update_invoice_status_with_history idHash c4db 10 1 failResp
            "create_invoice").1.retry_queue
            = c4db.retry_queue ++
              [{ id := c4db.next_retry_id, invoice_id := c4inv.id,
                 stripe_id := c4inv.stripe_id, provider := failResp.provider,
                 retry_count := 0, max_retries := 3,
                 retry_after := 10 + 30 * (c4inv.attempts + 1),
                 last_error := failResp.error, error_code := none,
                 active := true, completed := false, created_at := 10 }])
      ∧ (¬ c4inv.attempts + 1 < 3 →
          (update_invoice_status_with_history idHash c4db 10 1 failResp
            "create_invoice").1.retry_queue = c4db.retry_queue)) :=
  ⟨rfl, applyResult_failure_backoff idHash c4db 10 1 failResp
    "create_invoice" c4inv rfl rfl⟩

/-! ## C2 — retry exhaustion leaves active queue entries behind -/

/-- C2 (the code evaluated at the failing input, Scenario C): after the
third failed applyResult the record is FAILED with `attempts = 3` and the
third failure enqueues nothing, but the RetryQueueEntries enqueued after
the first and second failures are never deactivated — both remain with
`active = true`, `completed = false`, `retry_count = 0 < max_retries = 3`,
contradicting the claim (and the repository's own
`test_max_retry_attempts`) that no active RetryQueueEntry remains. -/
theorem scenarioC_leaves_active_retry_entries :
    ((scenarioC.invoices.find? fun i => i.id == 1).map
        fun i => (i.status, i.attempts))
      = some (ProcessingStatus.failed, 3)
    ∧ scenarioC.retry_queue = scenarioC_after2.retry_queue
    ∧ (scenarioC.retry_queue.map fun r =>
        (r.invoice_id, r.retry_count, r.max_retries, r.active, r.completed))
      = [(1, 0, 3, true, false), (1, 0, 3, true, false)] :=
  ⟨rfl, rfl, rfl⟩

/-! ## C3 — a committed partial write survives a failed applyResult -/

/-- C3 (the code evaluated at the failing input): applying a provider
result to an unknown record id raises ValueError, yet the "processing"
HistoryEntry opened first (with `stripe_id = ""`) was already committed by
`create_history` and survives — `get_db_context`'s rollback cannot undo a
commit — so a HistoryEntry without the corresponding record mutation is
observable and the operation is not atomic. -/
theorem applyResult_unknown_id_partial_write :
    (update_invoice_status_with_history idHash DB.empty 5 1 okResp
        "process").2
      = .error (.valueError "Invoice 1 not found")
    ∧ (update_invoice_status_with_history idHash DB.empty 5 1 okResp
        "process").1.invoices = []
    ∧ (update_invoice_status_with_history idHash DB.empty 5 1 okResp
        "process").1.history
      = [{ id := 1, invoice_id := 1, stripe_id := "", provider := "anaf",
           action := "process", status := "processing",
           request_data := some "process", started_at := 5 }] :=
  ⟨rfl, rfl, rfl⟩

/-! ## C7 — the losing intake of a race errors instead of degrading -/

/-- C7 counterexample: the claim says the loser of a duplicate-key race
returns via the duplicate path (`isDuplicate = true`).  In the modelled
race — duplicate check against a state without the key, insert against a
state holding it — the intake returns the propagated `IntegrityError`
(the `except SQLAlchemyError` block re-raises) and not a duplicate
result; the committed state is unchanged. -/
theorem intake_race_loser_errors :
    process_invoice_with_duplicate_check2 DB.empty c4db 3
        (sampleData "ch_2") "anaf" .stripe_charge
      = (c4db, .error .integrityError) := rfl

/-- C7 amended: when the duplicate check observes a state without the
`(source_id, provider)` key but a record for the key exists at insert
time, exactly one creation occurs — the loser's insert hits the
`uix_stripe_provider` uniqueness constraint, so the committed state is the
insert-time state unchanged — but the loser re-raises the constraint
violation (`SQLAlchemyError`) to the caller instead of falling back to
the duplicate path. -/
theorem intake_race_exactly_one_creation (dbCheck dbInsert : DB)
    (now : Nat) (d : InvoiceData) (provider : String) (ty : InvoiceType)
    (hcheck : check_duplicate dbCheck d.source_id provider = none)
    (r : ProcessedInvoice)
    (hexists : check_duplicate dbInsert d.source_id provider = some r) :
    process_invoice_with_duplicate_check2 dbCheck dbInsert now d provider ty
      = (dbInsert, .error .integrityError) := by
  have hfind : List.find? (fun inv =>
      inv.stripe_id == d.source_id && inv.provider == provider)
      dbInsert.invoices = some r := hexists
  have hpr := List.find?_some hfind
  have hany : (dbInsert.invoices.any fun inv =>
      inv.stripe_id == d.source_id && inv.provider == provider) = true :=
    List.any_eq_true.mpr ⟨r, List.mem_of_find?_eq_some hfind, hpr⟩
  unfold process_invoice_with_duplicate_check2
  rw [hcheck]
  unfold create_invoice
  rw [if_pos hany]

/-- C7 witness: the race of two intakes for key ("ch_2", "anaf"). -/
theorem intake_race_exactly_one_creation_witness :
    check_duplicate DB.empty "ch_2" "anaf" = none ∧
    check_duplicate c4db "ch_2" "anaf" = some c4inv ∧
    process_invoice_with_duplicate_check2 DB.empty c4db 9
        (sampleData "ch_2") "anaf" .stripe_charge
      = (c4db, .error .integrityError) :=
  ⟨rfl, rfl, intake_race_exactly_one_creation DB.empty c4db 9
    (sampleData "ch_2") "anaf" .stripe_charge rfl c4inv rfl⟩

/-! ## C6 — attempts monotonicity and the retry sweep's silent status flip -/

/-- C6 counterexample: `process_retry_queue` performs a status update
(FAILED → RETRY, via direct assignment and commit) that does not
increment `attempts`, refuting "attempts is incremented on every status
update of the record": before the sweep the record is (FAILED, 1), after
it (RETRY, 1). -/
theorem retry_sweep_updates_status_without_increment :
    ((c6db.invoices.find? fun i => i.id == 1).map
        fun i => (i.status, i.attempts))
      = some (ProcessingStatus.failed, 1)
    ∧ (((process_retry_queue c6db 100 none).1.invoices.find?
        fun i => i.id == 1).map fun i => (i.status, i.attempts))
      = some (ProcessingStatus.retry, 1) :=
  ⟨rfl, rfl⟩

/-- `find?` by id commutes with mapping an id-preserving function. -/
theorem find?_invoices_map (l : List ProcessedInvoice)
    (f : ProcessedInvoice → ProcessedInvoice) (hf : ∀ i, (f i).id = i.id)
    (invoice_id : Nat) :
    (l.map f).find? (fun i => i.id == invoice_id)
      = (l.find? (fun i => i.id == invoice_id)).map f := by
  rw [List.find?_map]
  have hcomp : ((fun i : ProcessedInvoice => i.id == invoice_id) ∘ f)
      = fun i => i.id == invoice_id := by
    funext i
    simp [Function.comp, hf i]
  rw [hcomp]

/-- Effect of `DB.setInvoice` on the attempts counter seen through
`attemptsOf`: the observed row for `jid` is replaced exactly when `jid`
is the updated id, in which case the previously observed row is the one
the update read. -/
theorem attemptsOf_setInvoice (db : DB) (invoice_id : Nat)
    (inv inv' : ProcessedInvoice)
    (hfind : db.invoices.find? (fun i => i.id == invoice_id) = some inv)
    (hid : inv'.id = inv.id) (jid a : Nat)
    (ha : attemptsOf db jid = some a) :
    attemptsOf (db.setInvoice inv') jid
      = some (if jid = invoice_id then inv'.attempts else a)
    ∧ (jid = invoice_id → a = inv.attempts) := by
  have hb1 := List.find?_some hfind
  have hinv_id : inv.id = invoice_id := beq_iff_eq.mp hb1
  obtain ⟨invj, hj⟩ : ∃ invj,
      db.invoices.find? (fun i => i.id == jid) = some invj := by
    unfold attemptsOf at ha
    cases hfj : db.invoices.find? (fun i => i.id == jid) with
    | none => rw [hfj] at ha; cases ha
    | some y => exact ⟨y, rfl⟩
  have haj : invj.attempts = a := by
    unfold attemptsOf at ha
    rw [hj] at ha
    exact Option.some.inj ha
  have hb2 := List.find?_some hj
  have hj_id : invj.id = jid := beq_iff_eq.mp hb2
  have hf_id : ∀ i : ProcessedInvoice,
      ((fun i => if i.id == inv'.id then inv' else i) i).id = i.id := by
    intro i
    by_cases hcase : (i.id == inv'.id) = true
    · simp only [hcase, if_true]
      exact (beq_iff_eq.mp hcase).symm
    · simp [hcase]
  constructor
  · unfold attemptsOf DB.setInvoice
    rw [find?_invoices_map _ _ hf_id, hj]
    by_cases hji : jid = invoice_id
    · subst hji
      have hinvj : invj = inv := Option.some.inj (hj.symm.trans hfind)
      simp [hinvj, hid, if_pos rfl]
    · have hcond : (invj.id == inv'.id) = false := by
        rw [hid, hinv_id, hj_id]
        exact beq_eq_false_iff_ne.mpr hji
      simp [hcond, haj, if_neg hji]
      rw [if_neg (show ¬invj.id = inv'.id by
        rw [hj_id, hid, hinv_id]; exact hji)]
      exact haj
  · intro hji
    subst hji
    have hinvj : invj = inv := Option.some.inj (hj.symm.trans hfind)
    rw [← haj, hinvj]

/-- The updated row keeps the id of the row that was read. -/
theorem update_status_row_id (now : Nat) (status : ProcessingStatus)
    (pid em : Option String) (inv : ProcessedInvoice) :
    (update_status_row now status pid em inv).id = inv.id := by
  simp [update_status_row, apply_ite ProcessedInvoice.id, ite_self]

/-- The updated row increments `attempts` by exactly one. -/
theorem update_status_row_attempts (now : Nat) (status : ProcessingStatus)
    (pid em : Option String) (inv : ProcessedInvoice) :
    (update_status_row now status pid em inv).attempts
      = inv.attempts + 1 := by
  simp [update_status_row, apply_ite ProcessedInvoice.attempts, ite_self]

/-- Intake either leaves the record store unchanged (duplicate path or
propagated insert failure) or appends exactly one new record. -/
theorem intake_invoices (db : DB) (now : Nat) (d : InvoiceData)
    (provider : String) (ty : InvoiceType) :
    (process_invoice_with_duplicate_check db now d provider ty).1.invoices
      = db.invoices
    ∨ ∃ new, (process_invoice_with_duplicate_check db now d provider
        ty).1.invoices = db.invoices ++ [new] := by
  unfold process_invoice_with_duplicate_check
    process_invoice_with_duplicate_check2
  cases hc : check_duplicate db d.source_id provider with
  | some existing => exact Or.inl rfl
  | none =>
    have hany : (db.invoices.any fun inv =>
        inv.stripe_id == d.source_id && inv.provider == provider) = false :=
      List.any_eq_false.mpr (List.find?_eq_none.mp hc)
    unfold create_invoice
    rw [if_neg (by simp [hany])]
    exact Or.inr ⟨_, rfl⟩

/-- applyResult either leaves the record store unchanged (unknown id) or
replaces the row it read by `update_status_row` of it — same id,
`attempts` one higher — leaving all other rows untouched. -/
theorem applyResult_invoices (hash : String → String) (db : DB) (now : Nat)
    (invoice_id : Nat) (resp : ProviderResponse) (action : String) :
    (update_invoice_status_with_history hash db now invoice_id resp
        action).1.invoices = db.invoices
    ∨ ∃ inv0, db.invoices.find? (fun i => i.id == invoice_id) = some inv0
      ∧ ∃ row, row.id = inv0.id ∧ row.attempts = inv0.attempts + 1
        ∧ (update_invoice_status_with_history hash db now invoice_id resp
            action).1.invoices
          = db.invoices.map fun i => if i.id == row.id then row else i := by
  unfold update_invoice_status_with_history
  simp only [create_history]
  cases hfi : db.invoices.find? (fun i => i.id == invoice_id) with
  | none => exact Or.inl rfl
  | some inv0 =>
    dsimp only
    by_cases hsucc : resp.success = true
    · rw [if_pos hsucc]
      simp only [update_status, DB.setHistory, hfi]
      refine Or.inr ⟨inv0, rfl,
        update_status_row now .completed resp.invoice_id none inv0,
        update_status_row_id now .completed resp.invoice_id none inv0,
        update_status_row_attempts now .completed resp.invoice_id none inv0,
        ?_⟩
      split
      · rfl
      · rename_i p db4 h4 heq
        unfold complete_history at heq
        split at heq
        · exact Except.noConfusion heq
        · injection heq with hpair
          injection hpair with hdb4 hh4
          subst hdb4
          rw [(forward_xml_document_frame hash _ now _ _ _ _).1]
          rfl
    · rw [if_neg hsucc]
      simp only [update_status, DB.setHistory, hfi]
      refine Or.inr ⟨inv0, rfl,
        update_status_row now .failed none resp.message inv0,
        update_status_row_id now .failed none resp.message inv0,
        update_status_row_attempts now .failed none resp.message inv0,
        ?_⟩
      split
      · rfl
      · rename_i p db4 h4 heq
        unfold complete_history at heq
        split at heq
        · exact Except.noConfusion heq
        · injection heq with hpair
          injection hpair with hdb4 hh4
          subst hdb4
          split
          · rfl
          · rfl

/-- One retry-sweep iteration leaves every record's `attempts` unchanged
(it only flips the status to RETRY). -/
theorem attemptsOf_retry_step (now : Nat) (acc : DB × List RetryResult)
    (r : RetryQueue) (jid a : Nat) (h : attemptsOf acc.1 jid = some a) :
    attemptsOf (process_retry_step now acc r).1 jid = some a := by
  unfold process_retry_step
  cases hf : acc.1.invoices.find? (fun i => i.id == r.invoice_id) with
  | none => exact h
  | some inv =>
    obtain ⟨heq, himp⟩ := attemptsOf_setInvoice acc.1 r.invoice_id inv
      { inv with status := .retry, updated_at := now } hf rfl jid a h
    show attemptsOf (acc.1.setInvoice
      { inv with status := .retry, updated_at := now }) jid = some a
    rw [heq]
    by_cases hji : jid = r.invoice_id
    · rw [if_pos hji, himp hji]
    · rw [if_neg hji]

/-- The whole retry sweep fold leaves every record's `attempts`
unchanged. -/
theorem attemptsOf_retry_fold (now : Nat) (rs : List RetryQueue)
    (acc : DB × List RetryResult) (jid a : Nat)
    (h : attemptsOf acc.1 jid = some a) :
    attemptsOf (rs.foldl (process_retry_step now) acc).1 jid = some a := by
  induction rs generalizing acc with
  | nil => exact h
  | cons r rs ih => exact ih _ (attemptsOf_retry_step now acc r jid a h)

/-- Each single operation of the core keeps every record's `attempts`
counter non-decreasing. -/
theorem attemptsOf_applyOp_mono (hash : String → String) (db : DB)
    (op : Op) (jid a : Nat) (h : attemptsOf db jid = some a) :
    ∃ b, attemptsOf (applyOp hash db op) jid = some b ∧ a ≤ b := by
  obtain ⟨invj, hj⟩ : ∃ invj,
      db.invoices.find? (fun i => i.id == jid) = some invj := by
    unfold attemptsOf at h
    cases hfj : db.invoices.find? (fun i => i.id == jid) with
    | none => rw [hfj] at h; cases h
    | some y => exact ⟨y, rfl⟩
  cases op with
  | intake now d provider ty =>
    rcases intake_invoices db now d provider ty with heq | ⟨new, heq⟩
    · refine ⟨a, ?_, Nat.le_refl a⟩
      unfold applyOp attemptsOf
      unfold attemptsOf at h
      rw [heq]
      exact h
    · refine ⟨a, ?_, Nat.le_refl a⟩
      unfold applyOp attemptsOf
      rw [heq, List.find?_append, hj, Option.or_some]
      unfold attemptsOf at h
      rw [hj] at h
      exact h
  | applyResult now invoice_id resp action =>
    rcases applyResult_invoices hash db now invoice_id resp action with
      heq | ⟨inv0, hfi, row, hid, hatt, heq⟩
    · refine ⟨a, ?_, Nat.le_refl a⟩
      unfold applyOp attemptsOf
      unfold attemptsOf at h
      rw [heq]
      exact h
    · obtain ⟨hres, himp⟩ :=
        attemptsOf_setInvoice db invoice_id inv0 row hfi hid jid a h
      refine ⟨if jid = invoice_id then row.attempts else a, ?_, ?_⟩
      · unfold applyOp attemptsOf
        rw [heq]
        unfold attemptsOf DB.setInvoice at hres
        exact hres
      · by_cases hji : jid = invoice_id
        · rw [if_pos hji, hatt, ← himp hji]
          exact Nat.le_succ a
        · rw [if_neg hji]
  | retrySweep now provider =>
    exact ⟨a, attemptsOf_retry_fold now _ (db, []) jid a h, Nat.le_refl a⟩

/-- C6: for every record, the `attempts` counter is monotonically
non-decreasing across any sequence of core operations (intakes, result
applications and retry sweeps).  The spec's further clause that
`attempts` is "incremented on every status update" holds for
`update_status` (which always runs `invoice.attempts += 1`) but not for
the retry sweep, which writes `invoice.status = RETRY` directly without
touching `attempts` — see the counterexample
`retry_sweep_updates_status_without_increment`. -/
theorem attempts_monotone_over_ops (hash : String → String)
    (ops : List Op) (db : DB) (jid a : Nat)
    (h : attemptsOf db jid = some a) :
    ∃ b, attemptsOf (ops.foldl (applyOp hash) db) jid = some b ∧ a ≤ b := by
  induction ops generalizing db a with
  | nil => exact ⟨a, h, Nat.le_refl a⟩
  | cons op ops ih =>
    obtain ⟨b, hb, hab⟩ := attemptsOf_applyOp_mono hash db op jid a h
    obtain ⟨c, hc, hbc⟩ := ih (applyOp hash db op) b hb
    exact ⟨c, hc, Nat.le_trans hab hbc⟩

/-- Witness: starting from the `c6db` fixture (`attempts = 1`), a retry
sweep followed by another failed result application leaves `attempts` at
some value `≥ 1`. -/
theorem attempts_monotone_over_ops_witness :
    attemptsOf c6db 1 = some 1
    ∧ ∃ b, attemptsOf
        (([Op.retrySweep 100 none,
           Op.applyResult 130 1 failResp "create_invoice"]).foldl
          (applyOp idHash) c6db) 1 = some b ∧ 1 ≤ b :=
  ⟨rfl, attempts_monotone_over_ops idHash
    [Op.retrySweep 100 none, Op.applyResult 130 1 failResp "create_invoice"]
    c6db 1 1 rfl⟩
